import Mathlib

set_option autoImplicit false

/-!
A verification development for the dependency-provisioning and sandboxed-execution
core of the py-lama/devlama repository.  Python functions are shallowly embedded as
Lean functions; the host environment (importability of modules, the installed-package
registry, pip and docker outcomes, subprocess outcomes) is passed in explicitly, and
side effects are recorded as explicit action traces.
-/

namespace DevLama

/-! ## CodeAnalyzer (src/sandbox/code_analyzer.py) -/

/-- Outcome of the call to importlib.util.find_spec inside
CodeAnalyzer._classify_module: a spec object is found, the call returns None,
or the call raises ImportError or ValueError (both caught by the source). -/
inductive FindSpecOutcome where
  | found
  | notFound
  | raises
deriving DecidableEq, Repr

/-- Host environment seen by CodeAnalyzer: membership in self.std_lib_modules
(built in CodeAnalyzer.__init__ from sys.builtin_module_names, the loaded
sys.modules and the static additional_std_libs table) and the behavior of the
importlib.util.find_spec call. -/
structure ClassifyEnv where
  stdLib : String → Bool
  findSpec : String → FindSpecOutcome

/-- The static additional_std_libs table of CodeAnalyzer._add_standard_libraries
(src/sandbox/code_analyzer.py lines 34-54), transcribed verbatim.  The full
std_lib_modules set of an analyzer instance is a superset of this list. -/
def additional_std_libs : List String :=
  ["os", "sys", "math", "random", "datetime", "time", "json",
   "csv", "re", "collections", "itertools", "functools", "typing",
   "pathlib", "io", "tempfile", "shutil", "glob", "argparse",
   "logging", "unittest", "pickle", "hashlib", "uuid", "copy",
   "subprocess", "multiprocessing", "threading", "queue", "socket",
   "email", "http", "urllib", "base64", "html", "xml", "zipfile",
   "tarfile", "gzip", "bz2", "lzma", "zlib", "struct", "array",
   "enum", "statistics", "decimal", "fractions", "numbers",
   "cmath", "contextlib", "abc", "ast", "dis", "inspect",
   "importlib", "pkgutil", "traceback", "warnings", "weakref",
   "types", "operator", "string", "calendar", "locale", "gettext",
   "platform", "signal", "gc", "atexit", "builtins", "code",
   "codecs", "codeop", "msvcrt", "winreg", "winsound", "posix",
   "pwd", "spwd", "grp", "crypt", "termios", "tty", "pty", "fcntl",
   "pipes", "resource", "nis", "syslog", "optparse", "getopt",
   "cmd", "shlex", "pdb", "profile", "pstats", "timeit",
   "trace", "tracemalloc", "distutils", "ensurepip", "venv",
   "zipapp", "turtle", "cmd", "asyncio", "concurrent", "contextvars",
   "dataclasses", "graphlib", "zoneinfo"]

/-- CodeAnalyzer._classify_module (src/sandbox/code_analyzer.py lines 117-136):
standard_library when the name is in std_lib_modules; otherwise third_party when
find_spec returns a spec object; unknown when it returns None or raises. -/
def classify_module (env : ClassifyEnv) (module_name : String) : String :=
  if env.stdLib module_name then "standard_library"
  else
    match env.findSpec module_name with
    | .found => "third_party"
    | .notFound => "unknown"
    | .raises => "unknown"

/-- The import statements found by ast.walk over a parsed Python module, in walk
order: import statements with their (possibly dotted) names, from-imports with
their optional module (none for a relative import without a module name, which
the source skips), and all other nodes. -/
inductive PyStmt where
  | imp (names : List String)
  | impFrom (module : Option String)
  | other
deriving DecidableEq, Repr

/-- The top-level name of a dotted module path, the first element of the split
at dots: the characters before the first dot. -/
def topLevel (name : String) : String :=
  (name.toList.takeWhile (fun c => c ≠ Char.ofNat 46)).asString

/-- Python dict assignment imports[k] = v: an existing key keeps its position and
gets the new value, a new key is appended at the end. -/
def dictInsert (imports : List (String × String)) (k v : String) :
    List (String × String) :=
  if imports.any (fun p => p.1 = k) then
    imports.map (fun p => if p.1 = k then (k, v) else p)
  else imports ++ [(k, v)]

/-- One step of the ast.walk loop of CodeAnalyzer.analyze_code (lines 71-80):
ast.Import records every listed name, ast.ImportFrom records node.module when
present; each recorded name is truncated to its top level and classified. -/
def collectStep (env : ClassifyEnv) (imports : List (String × String)) :
    PyStmt → List (String × String)
  | .imp names =>
      names.foldl
        (fun acc n => dictInsert acc (topLevel n) (classify_module env (topLevel n)))
        imports
  | .impFrom (some m) => dictInsert imports (topLevel m) (classify_module env (topLevel m))
  | .impFrom none => imports
  | .other => imports

/-- The imports dict built by the ast.walk loop of CodeAnalyzer.analyze_code. -/
def collect_imports (env : ClassifyEnv) (stmts : List PyStmt) :
    List (String × String) :=
  stmts.foldl (collectStep env) []

/-- The dictionary returned by CodeAnalyzer.analyze_code: the imports mapping,
the three per-category name lists, the required_packages list, and the error
entry present only on the exception path. -/
structure AnalysisResult where
  imports : List (String × String)
  standard_library : List String
  third_party : List String
  unknown : List String
  required_packages : List String
  error : Option String
deriving DecidableEq, Repr

/-- CodeAnalyzer.analyze_code (src/sandbox/code_analyzer.py lines 58-115).  The
parsed argument is the outcome of ast.parse(code): on SyntaxError (or any other
exception, both handlers build the same dictionary) every list is empty and the
error entry carries the message; otherwise the imports are collected, filtered
by category, and required_packages is third_party plus unknown. -/
def analyze_code (env : ClassifyEnv) (parsed : Except String (List PyStmt)) :
    AnalysisResult :=
  match parsed with
  | .error msg =>
      { imports := [], standard_library := [], third_party := [], unknown := [],
        required_packages := [], error := some msg }
  | .ok stmts =>
      let imports := collect_imports env stmts
      let std := (imports.filter (fun p => p.2 = "standard_library")).map (fun p => p.1)
      let third := (imports.filter (fun p => p.2 = "third_party")).map (fun p => p.1)
      let unk := (imports.filter (fun p => p.2 = "unknown")).map (fun p => p.1)
      { imports := imports, standard_library := std, third_party := third,
        unknown := unk, required_packages := third ++ unk, error := none }

/-! ## DependencyManager (src/DependencyManager.py) -/

/-- DependencyManager.PACKAGE_MAPPING (src/DependencyManager.py lines 37-44):
the static alias table from import name to installable package name. -/
def PACKAGE_MAPPING : List (String × String) :=
  [("PIL", "pillow"), ("cv2", "opencv-python"), ("sklearn", "scikit-learn"),
   ("bs4", "beautifulsoup4"), ("webdriver", "selenium"), ("Image", "Pillow")]

/-- PACKAGE_MAPPING.get(module, module): the alias-table entry when one exists,
the module name itself otherwise. -/
def mapped_package (module : String) : String :=
  match PACKAGE_MAPPING.lookup module with
  | some pkg => pkg
  | none => module

/-- Host environment seen by DependencyManager.check_dependencies: whether the
importlib.import_module call succeeds for a name, and the lowercase package
names of the installed-package registry built by get_installed_packages. -/
structure DepEnv where
  importable : String → Bool
  installed_packages : List String

/-- DependencyManager.check_dependencies (src/DependencyManager.py lines
109-134): per module, an import that succeeds means installed; otherwise the
alias-mapped package name is looked up (lowercased) in the registry; a miss
appends the mapped package name to the missing list. -/
def check_dependencies (env : DepEnv) : List String → List String × List String
  | [] => ([], [])
  | module :: rest =>
      let tail := check_dependencies env rest
      if env.importable module then (module :: tail.1, tail.2)
      else
        let package_name := mapped_package module
        if env.installed_packages.contains package_name.toLower then
          (module :: tail.1, tail.2)
        else (tail.1, package_name :: tail.2)

/-- The dedup-and-map pass of DependencyManager.install_dependencies (lines
143-151): map each name through the alias table and keep the first occurrence
of each lowercased mapped name. -/
def dedup_mapped (seen : List String) : List String → List String
  | [] => []
  | pkg :: rest =>
      let mapped := mapped_package pkg
      if seen.contains mapped.toLower then dedup_mapped seen rest
      else mapped :: dedup_mapped (mapped.toLower :: seen) rest

/-- The per-package pip loop of DependencyManager.install_dependencies (lines
156-170): one pip invocation per package in order; a CalledProcessError clears
the success flag and the loop continues.  Returns the final flag and the list
of pip invocations. -/
def install_loop (pip_ok : String → Bool) : List String → Bool → Bool × List String
  | [], success => (success, [])
  | pkg :: rest, success =>
      let next := install_loop pip_ok rest (success && pip_ok pkg)
      (next.1, pkg :: next.2)

/-- DependencyManager.install_dependencies (src/DependencyManager.py lines
136-177): early True on an empty list, otherwise the deduplicated mapped
packages are installed one at a time. -/
def install_dependencies (pip_ok : String → Bool) (packages : List String) :
    Bool × List String :=
  if packages.isEmpty then (true, [])
  else install_loop pip_ok (dedup_mapped [] packages) true

/-! ## Legacy duplicated variants in src/pylama.py -/

/-- DependencyManager.install_dependencies of the legacy module src/pylama.py
(lines 469-482): an empty list returns True with no invocation; otherwise one
single batch pip invocation is made with the whole package list, and its
success is the returned flag.  Returns the flag and the list of pip
invocations (each invocation is the argument list it received). -/
def install_dependencies_legacy (pip_batch_ok : List String → Bool)
    (packages : List String) : Bool × List (List String) :=
  if packages.isEmpty then (true, [])
  else (pip_batch_ok packages, [packages])

/-- The tail of main in src/pylama.py (lines 545-554): with missing packages
and a failed install_dependencies call the function returns before
run_code_with_debug; returns whether the Execute step is reached. -/
def main_reaches_execute (missing : List String) (install_ok : Bool) : Bool :=
  if missing.isEmpty then true
  else install_ok

/-! ## PythonSandbox (src/sandbox/python_sandbox.py) -/

/-- Outcome of a subprocess.run call on the temporary script: the process
completed with an exit code and captured output, the wall-clock timeout
expired, or some other exception was raised. -/
inductive RunOutcome where
  | completed (exit_code : Int) (stdout stderr : String)
  | timedOut
  | raised (type_name msg : String)
deriving DecidableEq, Repr

/-- Whether the outcome is a completed run with exit code 0. -/
def RunOutcome.isSuccess : RunOutcome → Bool
  | completed ec _ _ => ec == 0
  | _ => false

/-- The execution-result dictionary of PythonSandbox.  The source also spreads
the analyze_dependencies report into the same dictionary; that payload is
independent of these fields and is not modelled here. -/
structure ExecResult where
  success : Bool
  stdout : String
  stderr : String
  exit_code : Option Int
  error_type : Option String
deriving DecidableEq, Repr

/-- The externally visible actions of one PythonSandbox run, in order. -/
inductive SandboxAction where
  | createTempFile
  | installPackage (package : String)
  | spawnProcess
  | killSpawned
  | removeTempFile
deriving DecidableEq, Repr

/-- PythonSandbox._run_locally (src/sandbox/python_sandbox.py lines 57-122).
The code is written to a temporary file; each missing package is passed to
install_package, whose boolean result install_ok is ignored by the control
flow exactly as in the source; the script is run via subprocess.run with a
timeout.  On TimeoutExpired, subprocess.run kills the spawned child and waits
for it before the exception propagates (the documented contract of
subprocess.run), recorded as killSpawned.  The finally block removes the
temporary file on every exit path. -/
def run_locally (install_ok : String → Bool) (missing_packages : List String)
    (outcome : RunOutcome) : ExecResult × List SandboxAction :=
  let installs := missing_packages.map SandboxAction.installPackage
  let body : ExecResult × List SandboxAction :=
    match outcome with
    | .completed ec out err =>
        ({ success := ec == 0, stdout := out, stderr := err,
           exit_code := some ec, error_type := none },
         installs ++ [SandboxAction.spawnProcess])
    | .timedOut =>
        ({ success := false, stdout := "",
           stderr := "Przekroczono limit czasu wykonania.",
           exit_code := none, error_type := some "TimeoutError" },
         installs ++ [SandboxAction.spawnProcess, SandboxAction.killSpawned])
    | .raised ty msg =>
        ({ success := false, stdout := "",
           stderr := "Blad podczas wykonania kodu: " ++ msg,
           exit_code := none, error_type := some ty },
         installs ++ [SandboxAction.spawnProcess])
  (body.1, SandboxAction.createTempFile :: body.2 ++ [SandboxAction.removeTempFile])

/-- PythonSandbox.run_code (src/sandbox/python_sandbox.py lines 27-55).  It
first calls analyze_dependencies of sandbox/dependency_manager.py (a module
of this repository absent from src/; per the spec the DependencyResolver only
analyzes imports and queries the installed-package registry, so it performs no
install and no execution, and its report is merely spread into the returned
dictionary).  parsed is the outcome of the ast.parse(code) check: on
SyntaxError the function returns the failure dictionary directly, with no
action performed; otherwise it delegates to _run_locally. -/
def run_code (install_ok : String → Bool) (missing_packages : List String)
    (parsed : Except String Unit) (outcome : RunOutcome) :
    ExecResult × List SandboxAction :=
  match parsed with
  | .error msg =>
      ({ success := false, stdout := "", stderr := "Blad skladni: " ++ msg,
         exit_code := none, error_type := some "SyntaxError" }, [])
  | .ok _ => run_locally install_ok missing_packages outcome

/-! ## DockerSandbox (src/sandbox.py) -/

/-- The docker-side responses seen by DockerSandbox: whether docker image
inspect succeeds, whether docker pull succeeds, whether docker run returns 0,
and whether the started container is reported running after the startup
sleep. -/
structure DockerBehavior where
  image_present : Bool
  pull_ok : Bool
  run_ok : Bool
  startup_ok : Bool
deriving DecidableEq, Repr

/-- The docker commands and process events of one DockerSandbox call, in
order.  killLocalClient is the kill of the local docker CLI client process
performed by subprocess.run when its timeout expires. -/
inductive DockerAction where
  | inspectImage
  | pullImage
  | dockerRun
  | createTempDir
  | dockerCp
  | dockerExec
  | killLocalClient
  | dockerStop
  | removeTempDir
deriving DecidableEq, Repr

/-- DockerSandbox.start_container (src/sandbox.py lines 575-643), as a step on
the container-running state.  An already-running container returns True at
once with no docker command.  Otherwise the image is inspected and pulled if
absent (a pull failure raises CalledProcessError, caught and turned into
False); docker run is issued; on a zero exit the code sleeps and trusts a
final is_container_running check.  Returns (returned flag, container running
afterwards, docker commands issued). -/
def start_container (beh : DockerBehavior) (running : Bool) :
    Bool × Bool × List DockerAction :=
  if running then (true, true, [])
  else if beh.image_present then
    if beh.run_ok then
      (beh.startup_ok, beh.startup_ok, [DockerAction.inspectImage, DockerAction.dockerRun])
    else (false, false, [DockerAction.inspectImage, DockerAction.dockerRun])
  else if beh.pull_ok then
    if beh.run_ok then
      (beh.startup_ok, beh.startup_ok,
       [DockerAction.inspectImage, DockerAction.pullImage, DockerAction.dockerRun])
    else (false, false,
      [DockerAction.inspectImage, DockerAction.pullImage, DockerAction.dockerRun])
  else (false, false, [DockerAction.inspectImage, DockerAction.pullImage])

/-- Outcome of the docker exec subprocess.run call inside
DockerSandbox.execute_code. -/
inductive DockerExecOutcome where
  | completed (exit_code : Int) (stdout stderr : String)
  | timedOut
  | raised (msg : String)
deriving DecidableEq, Repr

/-- DockerSandbox.execute_code (src/sandbox.py lines 746-864).  The script is
written inside a TemporaryDirectory context, removed on every exit path.  When
the container is not running, start_container is called and its result is
ignored; docker cp then fails with CalledProcessError if the container is
still down, which the except branch turns into a failure result.  With the
container up, the script is copied in and executed via docker exec under
subprocess.run with a timeout.  On TimeoutExpired, subprocess.run kills only
the local docker exec client process (killLocalClient); the except branch
returns the timeout result without issuing any docker stop or docker kill, so
no command terminates the process started inside the container.  (As written,
this function also carries an unmatched closing parenthesis on line 863, a
SyntaxError that prevents the whole module from importing; the control flow
modelled here is the evident intent of the written text.) -/
def execute_code (beh : DockerBehavior) (running : Bool)
    (outcome : DockerExecOutcome) : (Bool × String × String) × List DockerAction :=
  let started := start_container beh running
  let pre := DockerAction.createTempDir :: started.2.2
  if started.2.1 then
    match outcome with
    | .completed ec out err =>
        ((ec == 0, out, err),
         pre ++ [DockerAction.dockerCp, DockerAction.dockerExec, DockerAction.removeTempDir])
    | .timedOut =>
        ((false, "", "Przekroczony limit czasu wykonania"),
         pre ++ [DockerAction.dockerCp, DockerAction.dockerExec,
                 DockerAction.killLocalClient, DockerAction.removeTempDir])
    | .raised msg =>
        ((false, "", msg),
         pre ++ [DockerAction.dockerCp, DockerAction.dockerExec, DockerAction.removeTempDir])
  else
    ((false, "", "docker cp failed"),
     pre ++ [DockerAction.dockerCp, DockerAction.removeTempDir])

/-! ## OllamaRunner.run_code_with_debug (src/OllamaRunner.py lines 287-350 and
the identical copy src/pylama/OllamaRunner.py lines 454-517) -/

/-- The environment of one run_code_with_debug call: the outcome of the first
subprocess run of the generated script, the code returned by
debug_and_regenerate_code (none when extraction fails and the empty-string
falsy result is returned), and whether the user answers yes to running the
fixed code. -/
structure DebugEnv where
  first_outcome : RunOutcome
  debugged_code : Option String
  user_approves : Bool

/-- OllamaRunner.run_code_with_debug: one run of the script; on a nonzero exit
code, one LLM debugging query regenerates the code, and the regenerated script
is run once more only if the user approves, with no further debugging; the
function then returns False.  On timeout the process is killed and False is
returned.  No package is ever installed in this flow and no record of
attempted modules exists.  Returns (result, Execute calls, installs). -/
def run_code_with_debug (env : DebugEnv) : Bool × Nat × Nat :=
  match env.first_outcome with
  | .completed ec _ _ =>
      if ec == 0 then (true, 1, 0)
      else
        match env.debugged_code with
        | some _ => if env.user_approves then (false, 2, 0) else (false, 1, 0)
        | none => (false, 1, 0)
  | .timedOut => (false, 1, 0)
  | .raised _ _ => (false, 1, 0)

/-! ## The retry orchestrator of the specification -/

/-- Modelled from the spec: the SandboxOrchestrator retry loop of spec section
4.5 with RetryState (attempt, max_attempts, attempted_modules), which has no
implementation anywhere under src/.  On code that always fails with a
missing-module error, attempt k of the Execute step reports module missing_of
k; a reported module not yet in attempted_modules, with attempt below
max_attempts, is added to attempted_modules, installed, and the loop
re-executes; any other failure ends the run.  remaining is max_attempts minus
the current attempt number.  Returns (Execute calls, installs,
attempted_modules). -/
def spec_orchestrator_loop (missing_of : Nat → String) :
    Nat → Nat → List String → Nat × Nat × List String
  | _, 0, attempted => (1, 0, attempted)
  | attempt, r + 1, attempted =>
      let m := missing_of attempt
      if attempted.contains m then (1, 0, attempted)
      else
        let next := spec_orchestrator_loop missing_of (attempt + 1) r (attempted ++ [m])
        (next.1 + 1, next.2.1 + 1, next.2.2)

/-- Modelled from the spec: a full orchestrator run on perpetually failing
code, starting at attempt 1 with an empty attempted_modules set. -/
def spec_orchestrator_run (missing_of : Nat → String) (max_attempts : Nat) :
    Nat × Nat × List String :=
  spec_orchestrator_loop missing_of 1 (max_attempts - 1) []

/-! ## Theorems -/

/-- C10: analyze_code is total and never raises: every input yields a result
carrying the imports, standard_library, third_party, unknown and
required_packages entries, with required_packages equal to third_party
followed by unknown; when an exception interrupts the analysis all of these
are empty and the extra error entry carries the message. -/
theorem C10_analyze_code_total (cenv : ClassifyEnv) (msg : String)
    (stmts : List PyStmt) :
    analyze_code cenv (.error msg) =
      { imports := [], standard_library := [], third_party := [], unknown := [],
        required_packages := [], error := some msg } ∧
    (analyze_code cenv (.ok stmts)).required_packages =
      (analyze_code cenv (.ok stmts)).third_party ++
        (analyze_code cenv (.ok stmts)).unknown ∧
    (analyze_code cenv (.ok stmts)).error = none :=
  ⟨rfl, rfl, rfl⟩

/-- C2: a syntactically invalid source yields the ParseError analysis result
with an empty import set, and run_code returns a failure result with success
false, empty stdout and error_type SyntaxError, performing no action at all:
the subprocess is never spawned and no install is attempted. -/
theorem C2_parse_error_skips_execution (cenv : ClassifyEnv)
    (install_ok : String → Bool) (missing : List String) (outcome : RunOutcome)
    (msg : String) :
    analyze_code cenv (.error msg) =
      { imports := [], standard_library := [], third_party := [], unknown := [],
        required_packages := [], error := some msg } ∧
    (run_code install_ok missing (.error msg) outcome).1.success = false ∧
    (run_code install_ok missing (.error msg) outcome).1.stdout = "" ∧
    (run_code install_ok missing (.error msg) outcome).1.error_type =
      some "SyntaxError" ∧
    (run_code install_ok missing (.error msg) outcome).2 = [] :=
  ⟨rfl, rfl, rfl, rfl, rfl⟩

/-- C3: a sandbox run result has success true exactly when the subprocess
completed with exit code 0 and no timeout occurred; on timeout the result has
success false, error_type TimeoutError, and no exit code (in particular not
exit code 0). -/
theorem C3_success_iff_exit_zero_no_timeout (install_ok : String → Bool)
    (missing : List String) (outcome : RunOutcome) :
    ((run_locally install_ok missing outcome).1.success = true ↔
      outcome ≠ RunOutcome.timedOut ∧
      (run_locally install_ok missing outcome).1.exit_code = some 0) ∧
    (outcome = RunOutcome.timedOut →
      (run_locally install_ok missing outcome).1.success = false ∧
      (run_locally install_ok missing outcome).1.error_type =
        some "TimeoutError" ∧
      (run_locally install_ok missing outcome).1.exit_code ≠ some 0) := by
  cases outcome <;> simp [run_locally]

/-- Witness for C3 at the timeout outcome. -/
theorem C3_success_iff_exit_zero_no_timeout_witness :
    (run_locally (fun _ => true) [] RunOutcome.timedOut).1.success = false ∧
    (run_locally (fun _ => true) [] RunOutcome.timedOut).1.error_type =
      some "TimeoutError" ∧
    (run_locally (fun _ => true) [] RunOutcome.timedOut).1.exit_code ≠ some 0 :=
  (C3_success_iff_exit_zero_no_timeout (fun _ => true) [] RunOutcome.timedOut).2 rfl

/-- C9: container start is idempotent: from a state where the container is
already running, start_container returns True immediately and issues no docker
command (in particular no second docker run), and from any state a successful
start followed by a second start leaves the same single running container. -/
theorem C9_start_container_idempotent (beh : DockerBehavior) (running : Bool)
    (h : (start_container beh running).1 = true) :
    start_container beh true = (true, true, []) ∧
    DockerAction.dockerRun ∉ (start_container beh true).2.2 ∧
    start_container beh (start_container beh running).2.1 = (true, true, []) := by
  obtain ⟨ip, po, ro, so⟩ := beh
  cases running <;> cases ip <;> cases po <;> cases ro <;> cases so <;>
    simp_all [start_container]

/-- Witness for C9: a successful cold start followed by a second start. -/
theorem C9_start_container_idempotent_witness :
    start_container ⟨true, true, true, true⟩
        (start_container ⟨true, true, true, true⟩ false).2.1 = (true, true, []) :=
  (C9_start_container_idempotent ⟨true, true, true, true⟩ false rfl).2.2

/-- C5: for a module that cannot be imported, dependency resolution records in
the missing list the alias-table target when an entry exists and the module
name itself otherwise; the whole missing list is the alias-mapped image of the
unresolved modules.  In particular numpy maps to numpy (identity) while PIL
and sklearn map to their alias-table targets. -/
theorem C5_missing_uses_alias_table (env : DepEnv) (modules : List String) :
    (check_dependencies env modules).2 =
      (modules.filter (fun m =>
        !(env.importable m) &&
        !(env.installed_packages.contains (mapped_package m).toLower))).map
          mapped_package ∧
    mapped_package "PIL" = "pillow" ∧
    mapped_package "sklearn" = "scikit-learn" ∧
    mapped_package "numpy" = "numpy" := by
  refine ⟨?_, by decide, by decide, by decide⟩
  induction modules with
  | nil => rfl
  | cons m rest ih =>
      cases h1 : env.importable m <;>
        by_cases h2 : (mapped_package m).toLower ∈ env.installed_packages <;>
          simp [check_dependencies, h1, h2, ih]

/-- Every pair produced by dictInsert satisfies a predicate that holds for the
prior pairs and for the inserted pair. -/
theorem dictInsert_forall (P : String × String → Prop)
    (imports : List (String × String)) (k v : String)
    (h : ∀ p ∈ imports, P p) (hkv : P (k, v)) :
    ∀ p ∈ dictInsert imports k v, P p := by
  intro p hp
  unfold dictInsert at hp
  split at hp
  · obtain ⟨q, hq, hpq⟩ := List.mem_map.mp hp
    by_cases hk : q.1 = k
    · rw [if_pos hk] at hpq
      exact hpq ▸ hkv
    · rw [if_neg hk] at hpq
      exact hpq ▸ h q hq
  · rcases List.mem_append.mp hp with hmem | hmem
    · exact h p hmem
    · rw [List.mem_singleton.mp hmem]
      exact hkv

/-- The folded dictInsert over a list of import names preserves the invariant
that every recorded value is the classification of its key. -/
theorem foldl_dictInsert_value (cenv : ClassifyEnv) (names : List String) :
    ∀ imports : List (String × String),
      (∀ p ∈ imports, p.2 = classify_module cenv p.1) →
      ∀ p ∈ names.foldl (fun acc n =>
          dictInsert acc (topLevel n) (classify_module cenv (topLevel n))) imports,
        p.2 = classify_module cenv p.1 := by
  induction names with
  | nil => exact fun imports h => h
  | cons n rest ih =>
      intro imports h
      simp only [List.foldl_cons]
      exact ih _ (dictInsert_forall _ _ _ _ h rfl)

/-- Every pair recorded by one walk step maps its key to its classification. -/
theorem collectStep_value (cenv : ClassifyEnv) (imports : List (String × String))
    (s : PyStmt) (h : ∀ p ∈ imports, p.2 = classify_module cenv p.1) :
    ∀ p ∈ collectStep cenv imports s, p.2 = classify_module cenv p.1 := by
  cases s with
  | other => exact h
  | imp names => exact foldl_dictInsert_value cenv names imports h
  | impFrom mo =>
      cases mo with
      | none => exact h
      | some m => exact dictInsert_forall _ _ _ _ h rfl

/-- Every pair of the collected imports dict maps its key to its
classification. -/
theorem collect_imports_value (cenv : ClassifyEnv) (stmts : List PyStmt) :
    ∀ p ∈ collect_imports cenv stmts, p.2 = classify_module cenv p.1 := by
  suffices hgen : ∀ imports, (∀ p ∈ imports, p.2 = classify_module cenv p.1) →
      ∀ p ∈ stmts.foldl (collectStep cenv) imports,
        p.2 = classify_module cenv p.1 by
    exact hgen [] (by simp)
  induction stmts with
  | nil => exact fun imports h => h
  | cons s rest ih =>
      intro imports h
      simp only [List.foldl_cons]
      exact ih _ (collectStep_value cenv imports s h)

/-- check_dependencies on a list of importable modules marks every module
installed and none missing. -/
theorem check_dependencies_all_importable (env : DepEnv) (modules : List String)
    (h : ∀ m ∈ modules, env.importable m = true) :
    check_dependencies env modules = (modules, []) := by
  induction modules with
  | nil => rfl
  | cons m rest ih =>
      have hm := h m (by simp)
      have hr := ih fun x hx => h x (by simp [hx])
      simp [check_dependencies, hm, hr]

/-- C6: for a source all of whose imports are builtin modules (names in the
analyzer's standard-library table which, being part of the standard runtime,
are importable), every import is classified standard_library, the
required_packages list is empty, and check_dependencies places every module in
installed and none in missing. -/
theorem C6_builtin_only_empty_missing (cenv : ClassifyEnv) (denv : DepEnv)
    (stmts : List PyStmt)
    (hstd : ∀ p ∈ (analyze_code cenv (.ok stmts)).imports, cenv.stdLib p.1 = true)
    (himp : ∀ p ∈ (analyze_code cenv (.ok stmts)).imports,
      denv.importable p.1 = true) :
    (∀ p ∈ (analyze_code cenv (.ok stmts)).imports, p.2 = "standard_library") ∧
    (analyze_code cenv (.ok stmts)).required_packages = [] ∧
    check_dependencies denv
        ((analyze_code cenv (.ok stmts)).imports.map Prod.fst) =
      ((analyze_code cenv (.ok stmts)).imports.map Prod.fst, []) := by
  have hval : ∀ p ∈ collect_imports cenv stmts, p.2 = "standard_library" := by
    intro p hp
    rw [collect_imports_value cenv stmts p hp]
    simp [classify_module, hstd p hp]
  refine ⟨hval, ?_, ?_⟩
  · have hthird : (collect_imports cenv stmts).filter
        (fun p => p.2 = "third_party") = [] := by
      rw [List.filter_eq_nil_iff]
      intro p hp
      simp [hval p hp]
    have hunk : (collect_imports cenv stmts).filter
        (fun p => p.2 = "unknown") = [] := by
      rw [List.filter_eq_nil_iff]
      intro p hp
      simp [hval p hp]
    show ((collect_imports cenv stmts).filter (fun p => p.2 = "third_party")).map
        (fun p => p.1) ++ _ = []
    rw [hthird, hunk]
    rfl
  · refine check_dependencies_all_importable denv _ fun m hm => ?_
    obtain ⟨p, hp, hpm⟩ := List.mem_map.mp hm
    exact hpm ▸ himp p hp

/-- Witness for C6: a source importing os, json and math, classified against
the static additional_std_libs table. -/
theorem C6_builtin_only_empty_missing_witness :
    (analyze_code ⟨fun m => additional_std_libs.contains m, fun _ => .notFound⟩
        (.ok [PyStmt.imp ["os", "json"],
          PyStmt.impFrom (some "math")])).required_packages = [] ∧
    check_dependencies ⟨fun m => additional_std_libs.contains m, []⟩
        ((analyze_code ⟨fun m => additional_std_libs.contains m, fun _ => .notFound⟩
            (.ok [PyStmt.imp ["os", "json"],
              PyStmt.impFrom (some "math")])).imports.map Prod.fst) =
      ((analyze_code ⟨fun m => additional_std_libs.contains m, fun _ => .notFound⟩
          (.ok [PyStmt.imp ["os", "json"],
            PyStmt.impFrom (some "math")])).imports.map Prod.fst, []) := by
  have h := C6_builtin_only_empty_missing
    ⟨fun m => additional_std_libs.contains m, fun _ => .notFound⟩
    ⟨fun m => additional_std_libs.contains m, []⟩
    [PyStmt.imp ["os", "json"], PyStmt.impFrom (some "math")]
    (by decide) (by decide)
  exact ⟨h.2.1, h.2.2⟩

/-- The pip loop records exactly one invocation per package of its input list,
independently of which installs fail. -/
theorem install_loop_trace (pip_ok : String → Bool) (l : List String) (s : Bool) :
    (install_loop pip_ok l s).2 = l := by
  induction l generalizing s with
  | nil => rfl
  | cons p rest ih => simp [install_loop, ih]

/-- The pip loop's final flag is the starting flag conjoined with the success
of every invocation. -/
theorem install_loop_flag (pip_ok : String → Bool) (l : List String) (s : Bool) :
    (install_loop pip_ok l s).1 = (s && l.all pip_ok) := by
  induction l generalizing s with
  | nil => simp [install_loop]
  | cons p rest ih => simp [install_loop, ih, Bool.and_assoc]

/-- Unfolding of the dedup pass at a cons cell. -/
theorem dedup_mapped_cons (seen : List String) (p : String) (rest : List String) :
    dedup_mapped seen (p :: rest) =
      if seen.contains (mapped_package p).toLower then dedup_mapped seen rest
      else mapped_package p ::
        dedup_mapped ((mapped_package p).toLower :: seen) rest := rfl

/-- No package produced by the dedup pass has its lowercase form in the seen
set the pass started from. -/
theorem dedup_mapped_not_seen (l : List String) :
    ∀ seen : List String, ∀ x ∈ dedup_mapped seen l, x.toLower ∉ seen := by
  induction l with
  | nil =>
      intro seen x hx
      simp [dedup_mapped] at hx
  | cons p rest ih =>
      intro seen x hx
      by_cases h : (mapped_package p).toLower ∈ seen
      · rw [dedup_mapped_cons, if_pos (List.elem_iff.mpr h)] at hx
        exact ih seen x hx
      · rw [dedup_mapped_cons, if_neg (fun hc => h (List.elem_iff.mp hc))] at hx
        rcases List.mem_cons.mp hx with hx1 | hx2
        · rw [hx1]
          exact h
        · intro hcontra
          exact ih ((mapped_package p).toLower :: seen) x hx2
            (List.mem_cons_of_mem _ hcontra)

/-- The lowercase forms of the dedup pass's output are pairwise distinct. -/
theorem dedup_mapped_lower_nodup (l : List String) :
    ∀ seen : List String, ((dedup_mapped seen l).map String.toLower).Nodup := by
  induction l with
  | nil =>
      intro seen
      simp [dedup_mapped]
  | cons p rest ih =>
      intro seen
      by_cases h : (mapped_package p).toLower ∈ seen
      · rw [dedup_mapped_cons, if_pos (List.elem_iff.mpr h)]
        exact ih seen
      · rw [dedup_mapped_cons, if_neg (fun hc => h (List.elem_iff.mp hc)),
          List.map_cons, List.nodup_cons]
        refine ⟨?_, ih _⟩
        intro hcontra
        obtain ⟨x, hx, hxl⟩ := List.mem_map.mp hcontra
        exact dedup_mapped_not_seen rest ((mapped_package p).toLower :: seen) x hx
          (by rw [hxl]; exact List.mem_cons_self _ _)

/-- C7: DependencyManager.install_dependencies invokes pip once per distinct
mapped package, in order; the sequence of invocations does not depend on which
installs fail (a failure never blocks a later attempt), no package is invoked
twice, and the aggregate flag is true exactly when every invocation
succeeded. -/
theorem C7_installer_per_package (pip_ok : String → Bool)
    (packages : List String) :
    (install_dependencies pip_ok packages).2 =
      (install_dependencies (fun _ => true) packages).2 ∧
    ((install_dependencies pip_ok packages).2.map String.toLower).Nodup ∧
    (install_dependencies pip_ok packages).1 =
      (install_dependencies pip_ok packages).2.all pip_ok := by
  unfold install_dependencies
  cases h : packages.isEmpty
  · simp only [Bool.false_eq_true, if_false]
    refine ⟨by rw [install_loop_trace, install_loop_trace], ?_, ?_⟩
    · rw [install_loop_trace]
      exact dedup_mapped_lower_nodup packages []
    · rw [install_loop_flag, install_loop_trace, Bool.true_and]
  · simp

/-- C7 counterexample: the duplicated legacy installer of src/pylama.py makes
one single batch pip invocation for the two packages pkga and pkgb, not one
invocation per package, and when that batch fails the later package pkgb is
never attempted on its own. -/
theorem C7_counterexample :
    install_dependencies_legacy (fun _ => false) ["pkga", "pkgb"] =
      (false, [["pkga", "pkgb"]]) ∧
    (install_dependencies_legacy (fun _ => false) ["pkga", "pkgb"]).2.length = 1 ∧
    ["pkgb"] ∉ (install_dependencies_legacy (fun _ => false) ["pkga", "pkgb"]).2 := by
  decide

/-- C8: PythonSandbox._run_locally always reaches the Execute step (the
subprocess spawn) whatever the per-package install results are, but the main
flow of src/pylama.py returns before run_code_with_debug when its batch
install of a nonempty missing list fails. -/
theorem C8_sandbox_proceeds_main_aborts (install_ok : String → Bool)
    (missing : List String) (outcome : RunOutcome) (h : missing ≠ []) :
    SandboxAction.spawnProcess ∈ (run_locally install_ok missing outcome).2 ∧
    main_reaches_execute missing false = false := by
  constructor
  · cases outcome <;> simp [run_locally]
  · cases missing with
    | nil => exact absurd rfl h
    | cons m rest => rfl

/-- Witness for C8 with one missing package and a failing install. -/
theorem C8_sandbox_proceeds_main_aborts_witness :
    SandboxAction.spawnProcess ∈
      (run_locally (fun _ => false) ["pkga"] RunOutcome.timedOut).2 ∧
    main_reaches_execute ["pkga"] false = false :=
  C8_sandbox_proceeds_main_aborts (fun _ => false) ["pkga"] RunOutcome.timedOut
    (by decide)

/-- C8 counterexample: with missing package nonexistent_pkg_xyz and a wholly
failed install, the main flow of src/pylama.py does not proceed to the Execute
step. -/
theorem C8_counterexample :
    main_reaches_execute ["nonexistent_pkg_xyz"] false = false := by
  decide

/-- start_container never issues a docker stop command. -/
theorem start_container_no_stop (beh : DockerBehavior) (running : Bool) :
    DockerAction.dockerStop ∉ (start_container beh running).2.2 := by
  obtain ⟨ip, po, ro, so⟩ := beh
  cases running <;> cases ip <;> cases po <;> cases ro <;> cases so <;> decide

/-- C4 (amended): both backends remove their temporary file or directory on
every exit path; the local backend's spawned process is killed on timeout
before the Timeout result is returned; the container backend, however, never
issues any docker stop on any path — on timeout only the local docker exec
client process is killed, and the process started inside the container
receives no termination command. -/
theorem C4_cleanup_on_every_path (install_ok : String → Bool)
    (missing : List String) (outcome : RunOutcome) (beh : DockerBehavior)
    (running : Bool) (doutcome : DockerExecOutcome) :
    SandboxAction.removeTempFile ∈ (run_locally install_ok missing outcome).2 ∧
    (outcome = RunOutcome.timedOut →
      SandboxAction.killSpawned ∈ (run_locally install_ok missing outcome).2 ∧
      (run_locally install_ok missing outcome).1.error_type =
        some "TimeoutError") ∧
    DockerAction.removeTempDir ∈ (execute_code beh running doutcome).2 ∧
    DockerAction.dockerStop ∉ (execute_code beh running doutcome).2 ∧
    (doutcome = DockerExecOutcome.timedOut →
      (start_container beh running).2.1 = true →
      DockerAction.killLocalClient ∈ (execute_code beh running doutcome).2 ∧
      (execute_code beh running doutcome).1 =
        (false, "", "Przekroczony limit czasu wykonania")) := by
  refine ⟨?_, ?_, ?_, ?_, ?_⟩
  · cases outcome <;> simp [run_locally]
  · rintro rfl
    exact ⟨by simp [run_locally], rfl⟩
  · cases hs : (start_container beh running).2.1 <;> cases doutcome <;>
      simp [execute_code, hs]
  · have hns := start_container_no_stop beh running
    cases hs : (start_container beh running).2.1 <;> cases doutcome <;>
      simp_all [execute_code, hs]
  · rintro rfl hs
    simp [execute_code, hs]

/-- Witness for C4 at the two timeout outcomes with a running container. -/
theorem C4_cleanup_on_every_path_witness :
    SandboxAction.killSpawned ∈
      (run_locally (fun _ => true) [] RunOutcome.timedOut).2 ∧
    DockerAction.killLocalClient ∈
      (execute_code ⟨true, true, true, true⟩ true DockerExecOutcome.timedOut).2 :=
  ⟨((C4_cleanup_on_every_path (fun _ => true) [] RunOutcome.timedOut
      ⟨true, true, true, true⟩ true DockerExecOutcome.timedOut).2.1 rfl).1,
   ((C4_cleanup_on_every_path (fun _ => true) [] RunOutcome.timedOut
      ⟨true, true, true, true⟩ true DockerExecOutcome.timedOut).2.2.2.2 rfl
        (by decide)).1⟩

/-- C4 counterexample: with the container running and the docker exec timing
out, execute_code returns the Timeout result yet its docker command trace
contains the exec that started the in-container process and no docker stop at
all: the container-side process tree is not terminated. -/
theorem C4_counterexample :
    (execute_code ⟨true, true, true, true⟩ true DockerExecOutcome.timedOut).1 =
      (false, "", "Przekroczony limit czasu wykonania") ∧
    DockerAction.dockerExec ∈
      (execute_code ⟨true, true, true, true⟩ true DockerExecOutcome.timedOut).2 ∧
    DockerAction.dockerStop ∉
      (execute_code ⟨true, true, true, true⟩ true DockerExecOutcome.timedOut).2 := by
  decide

/-- C1 (amended): on a source whose execution fails, run_code_with_debug
always terminates with a failure result after at most two Execute calls (the
original run, plus at most one user-approved run of the LLM-regenerated code);
it performs no package install at all (so trivially no module is installed
more than once), and it maintains no attempted-modules record. -/
theorem C1_debug_cycle_bounded (env : DebugEnv)
    (h : env.first_outcome.isSuccess = false) :
    (run_code_with_debug env).1 = false ∧
    (run_code_with_debug env).2.1 ≤ 2 ∧
    (run_code_with_debug env).2.2 = 0 := by
  obtain ⟨fo, dc, ua⟩ := env
  cases fo with
  | completed ec out err =>
      simp only [RunOutcome.isSuccess] at h
      cases dc <;> cases ua <;> simp [run_code_with_debug, h]
  | timedOut => simp [run_code_with_debug]
  | raised ty msg => simp [run_code_with_debug]

/-- Witness for C1 at a timeout of the generated script. -/
theorem C1_debug_cycle_bounded_witness :
    (run_code_with_debug ⟨RunOutcome.timedOut, none, false⟩).1 = false ∧
    (run_code_with_debug ⟨RunOutcome.timedOut, none, false⟩).2.1 ≤ 2 ∧
    (run_code_with_debug ⟨RunOutcome.timedOut, none, false⟩).2.2 = 0 :=
  C1_debug_cycle_bounded ⟨RunOutcome.timedOut, none, false⟩ rfl

/-- C1 counterexample: on code that perpetually fails with a fresh missing
module each attempt, the orchestrator modelled from the spec performs exactly
max_attempts = 3 Execute calls, installs 2 modules and records them in
attempted_modules, while the run_code_with_debug flow actually in the source
performs a single Execute call and zero installs, maintaining no
attempted-modules set. -/
theorem C1_counterexample :
    spec_orchestrator_run (fun k => "missing_mod_" ++ toString k) 3 =
      (3, 2, ["missing_mod_1", "missing_mod_2"]) ∧
    run_code_with_debug
        ⟨RunOutcome.completed 1 ""
            "ModuleNotFoundError: No module named missing_mod_1",
          none, false⟩ = (false, 1, 0) := by
  constructor
  · rfl
  · rfl

end DevLama
